import Mathlib

namespace HybridCasper

/-!
Verification development for the hybrid Casper engine module
(`ethcore/src/engines/hybrid_casper.rs`).

The module is embedded shallowly: byte sequences are lists of naturals
(each entry a byte value), 160-bit addresses and 256-bit words are
naturals, fallible operations return `Except`, and the host-provided
mutable system-call capability (a Rust `FnMut`) is a state-passing
function over an abstract state type.
-/

/-- A byte sequence (Rust `Bytes`); each entry is a byte value. -/

abbrev Bytes := List Nat

/-! ## Big-endian byte arithmetic -/

/-- Minimal big-endian base-256 digits of a natural number
(the empty list for zero). -/

def natToBE (n : Nat) : Bytes :=
  if h : n = 0 then [] else natToBE (n / 256) ++ [n % 256]
decreasing_by exact Nat.div_lt_self (Nat.pos_of_ne_zero h) (by decide)

/-- Read a big-endian byte sequence back into a natural number. -/

def beToNat (l : Bytes) : Nat :=
  l.foldl (fun acc b => acc * 256 + b) 0

/-- Big-endian bytes of `n`, left-padded with zero bytes to width `k`. -/

def beBytesPadded (k n : Nat) : Bytes :=
  List.replicate (k - (natToBE n).length) 0 ++ natToBE n

/-! ## Data model: transactions -/

/-- A transaction action: contract creation, or a call to an address. -/

inductive Action where
  | create : Action
  | call (address : Nat) : Action
deriving DecidableEq, Repr

/-- The unsigned part of a transaction: its action and payload. -/

structure Transaction where
  action : Action
  data : Bytes
deriving DecidableEq, Repr

/-- A possibly-signed transaction: the unsigned content together with
whether the transaction is unsigned (the privileged-transaction marker
checked by `SignedTransaction::is_unsigned`). -/

structure SignedTransaction where
  unsigned : Transaction
  is_unsigned : Bool
deriving DecidableEq, Repr

/-! ## Data model: parameters -/

/-- Hybrid Casper parameters (`HybridCasperParams` in the source). -/

structure HybridCasperParams where
  contract_code : Bytes
  contract_address : Nat
  contract_balance : Nat
  purity_checker_contract_code : Bytes
  purity_checker_contract_address : Nat
  msg_hasher_contract_code : Bytes
  msg_hasher_contract_address : Nat
  rlp_decoder_contract_code : Bytes
  rlp_decoder_contract_address : Nat
  deploy_rlp_decoder : Bool
  epoch_length : Nat
  withdrawal_delay : Nat
  dynasty_logout_delay : Nat
  base_interest_factor : Nat
  base_penalty_factor : Nat
  min_deposit_size : Nat
  warm_up_period : Nat
  non_revert_min_deposits : Nat
deriving DecidableEq, Repr

/-! ## Vote-transaction classification -/

/-- `HybridCasper::is_vote_transaction`: the ordered guard chain from the
source — unsigned, a call to the main contract address, payload at least
4 bytes, first 4 payload bytes equal to the vote selector
`0xe9 0xdc 0x06 0x14`. -/

def is_vote_transaction (p : HybridCasperParams)
    (transaction : SignedTransaction) : Bool :=
  if !transaction.is_unsigned then
    false
  else
    let unsigned := transaction.unsigned
    match unsigned.action with
    | Action.create => false
    | Action.call address =>
      if address != p.contract_address then
        false
      else if unsigned.data.length < 4 then
        false
      else if unsigned.data.take 4 != [0xe9, 0xdc, 0x06, 0x14] then
        false
      else
        true

/-! ## Errors and the system-call capability -/

/-- The error type returned by the engine operations. The source returns
the crate-wide error type; `failedSystemCall` embeds the
`EngineError::FailedSystemCall(String)` variant every system-call path
produces, and `stateWrite` stands for the state-store errors genesis
initialization can propagate. -/

inductive Error where
  | failedSystemCall (msg : String) : Error
  | stateWrite (msg : String) : Error
deriving DecidableEq, Repr

/-- The host-provided privileged-call capability (`SystemCall` in the
source, a Rust `FnMut(Address, Bytes) -> Result<Bytes, String>`): a
state-passing function over an abstract caller state `σ`, taking the
destination address and call payload. -/

def SystemCall (σ : Type) : Type :=
  σ → Nat → Bytes → Except String Bytes × σ

/-- Wrap a capability so that it additionally records the sequence of
calls issued through it (address and payload, in order). -/

def traced {σ : Type} (caller : SystemCall σ) :
    SystemCall (σ × List (Nat × Bytes)) :=
  fun st addr data =>
    let r := caller st.1 addr data
    (r.1, (r.2, st.2 ++ [(addr, data)]))

/-! ## ABI call payloads

Modelled from the spec: the ABI codec and the `SimpleCasper` contract
ABI (`res/contracts/simple_casper.json`, pulled in by `use_contract!`)
are outside the given source. Per the spec they form a pure,
deterministic encoder: each call payload is the function's fixed 4-byte
selector followed by one 32-byte big-endian word per argument. The
selector byte values below are representative constants standing for the
ABI-derived ones; no claim depends on their exact values. -/

/-- A 32-byte big-endian ABI word holding a 256-bit value. -/

def abiWord (n : Nat) : Bytes :=
  beBytesPadded 32 (n % 2 ^ 256)

/-- Modelled from the spec: payload of `initialize_epoch(epoch)`. -/

def initialize_epoch_input (epoch : Nat) : Bytes :=
  [0x5d, 0xcf, 0xfc, 0x17] ++ abiWord epoch

/-- Modelled from the spec: payload of
`highest_justified_epoch(threshold)`. -/

def highest_justified_epoch_input (threshold : Nat) : Bytes :=
  [0x78, 0x3c, 0xcb, 0x4e] ++ abiWord threshold

/-- Modelled from the spec: payload of
`highest_finalized_epoch(threshold)`. -/

def highest_finalized_epoch_input (threshold : Nat) : Bytes :=
  [0x19, 0xdc, 0x02, 0x62] ++ abiWord threshold

/-- Modelled from the spec: payload of `checkpoint_hashes(epoch)`. -/

def checkpoint_hashes_input (epoch : Nat) : Bytes :=
  [0x98, 0xcd, 0xa0, 0x11] ++ abiWord epoch

/-- Modelled from the spec: payload of the nine-argument `init(...)`
call, arguments in the order the source passes them. -/

def init_input (p : HybridCasperParams) : Bytes :=
  [0x64, 0x20, 0xfb, 0x9f] ++
    abiWord p.epoch_length ++ abiWord p.warm_up_period ++
    abiWord p.withdrawal_delay ++ abiWord p.dynasty_logout_delay ++
    abiWord p.msg_hasher_contract_address ++
    abiWord p.purity_checker_contract_address ++
    abiWord p.base_interest_factor ++ abiWord p.base_penalty_factor ++
    abiWord p.min_deposit_size

/-- A concrete parameter set used by the witness theorems: the
documented default addresses and epoch timing, empty bytecodes, and a
non-revert-minimum-deposits threshold of 9. -/

def testParams : HybridCasperParams :=
  { contract_code := [], contract_address := 0x40,
    contract_balance := 0, purity_checker_contract_code := [],
    purity_checker_contract_address := 0x41,
    msg_hasher_contract_code := [],
    msg_hasher_contract_address := 0x42,
    rlp_decoder_contract_code := [],
    rlp_decoder_contract_address := 0x43,
    deploy_rlp_decoder := true, epoch_length := 5,
    withdrawal_delay := 150, dynasty_logout_delay := 70,
    base_interest_factor := 0, base_penalty_factor := 0,
    min_deposit_size := 0, warm_up_period := 5,
    non_revert_min_deposits := 9 }

/-! ## Epoch lifecycle -/

/-- `HybridCasper::init_casper_contract`: issue the `init` call to the
main contract, discarding its return value and mapping a call failure
to `FailedSystemCall`. -/

def init_casper_contract {σ : Type} (p : HybridCasperParams)
    (caller : SystemCall σ) (s : σ) : Except Error Unit × σ :=
  let data := init_input p
  match caller s p.contract_address data with
  | (Except.ok _, s1) => (Except.ok (), s1)
  | (Except.error e, s1) => (Except.error (Error.failedSystemCall e), s1)

/-- `HybridCasper::on_new_epoch`: when the block number is a multiple of
the epoch length, issue `initialize_epoch(block_number / epoch_length)`
to the main contract and propagate the call's result; otherwise succeed
without calling. -/

def on_new_epoch {σ : Type} (p : HybridCasperParams) (block_number : Nat)
    (caller : SystemCall σ) (s : σ) : Except Error Unit × σ :=
  if block_number % p.epoch_length = 0 then
    let data := initialize_epoch_input (block_number / p.epoch_length)
    match caller s p.contract_address data with
    | (Except.ok _, s1) => (Except.ok (), s1)
    | (Except.error e, s1) => (Except.error (Error.failedSystemCall e), s1)
  else
    (Except.ok (), s)

/-! ## Finality queries -/

/-- Modelled from the spec: `ethabi::decode(&[ParamType::Int(128)], out)`
followed by `.to_int()` — decode one signed 128-bit integer, returned as
the raw 32-byte word's value; any malformed output is a decode error
(stringified by the source before propagation). -/

def abi_decode_int128 (output : Bytes) : Except String Nat :=
  if output.length = 32 then Except.ok (beToNat output)
  else Except.error "abi decode error"

/-- Modelled from the spec: `ethabi::decode(&[ParamType::FixedBytes(32)],
out)` followed by `.to_fixed_bytes()` and `H256::from_slice` — decode
one fixed 32-byte value, returned as the 32-byte word's value. -/

def abi_decode_fixed_bytes32 (output : Bytes) : Except String Nat :=
  if output.length = 32 then Except.ok (beToNat output)
  else Except.error "abi decode error"

/-- `HybridCasper::highest_justified_epoch`: call the main contract with
the non-revert-minimum-deposits threshold as sole argument, decode one
Int(128) from the output, and wrap either failure as
`FailedSystemCall`. -/

def highest_justified_epoch {σ : Type} (p : HybridCasperParams)
    (caller : SystemCall σ) (s : σ) : Except Error Nat × σ :=
  let data := highest_justified_epoch_input p.non_revert_min_deposits
  match caller s p.contract_address data with
  | (Except.ok output, s1) =>
    match abi_decode_int128 output with
    | Except.ok v => (Except.ok v, s1)
    | Except.error e => (Except.error (Error.failedSystemCall e), s1)
  | (Except.error e, s1) => (Except.error (Error.failedSystemCall e), s1)

/-- `HybridCasper::highest_finalized_epoch`: same shape as
`highest_justified_epoch`, against the finalized-epoch ABI function. -/

def highest_finalized_epoch {σ : Type} (p : HybridCasperParams)
    (caller : SystemCall σ) (s : σ) : Except Error Nat × σ :=
  let data := highest_finalized_epoch_input p.non_revert_min_deposits
  match caller s p.contract_address data with
  | (Except.ok output, s1) =>
    match abi_decode_int128 output with
    | Except.ok v => (Except.ok v, s1)
    | Except.error e => (Except.error (Error.failedSystemCall e), s1)
  | (Except.error e, s1) => (Except.error (Error.failedSystemCall e), s1)

/-- `HybridCasper::checkpoint_hashes`: call with the given epoch as sole
argument, decode one FixedBytes(32) from the output into a hash, and
wrap either failure as `FailedSystemCall`. -/

def checkpoint_hashes {σ : Type} (p : HybridCasperParams) (epoch : Nat)
    (caller : SystemCall σ) (s : σ) : Except Error Nat × σ :=
  let data := checkpoint_hashes_input epoch
  match caller s p.contract_address data with
  | (Except.ok output, s1) =>
    match abi_decode_fixed_bytes32 output with
    | Except.ok v => (Except.ok v, s1)
    | Except.error e => (Except.error (Error.failedSystemCall e), s1)
  | (Except.error e, s1) => (Except.error (Error.failedSystemCall e), s1)

/-- A caller fixture for the query witnesses: it dispatches on the
4-byte selector prefix of the payload, answering the justified-epoch
query with the 32-byte word for 7, the finalized-epoch query with an
undersized output, and everything else with a call error. -/

def queryTestCaller : SystemCall Unit :=
  fun s _ data =>
    (if data.take 4 = [0x78, 0x3c, 0xcb, 0x4e] then Except.ok (abiWord 7)
     else if data.take 4 = [0x19, 0xdc, 0x02, 0x62] then Except.ok [1]
     else Except.error "call failed", s)

/-! ## Finality metadata -/

/-- Casper-related metadata (`HybridCasperMetadata` in the source).
Fields hold 256-bit values: three `U256` counters and an `H256` hash,
each represented as a natural number below `2 ^ 256`. -/

structure HybridCasperMetadata where
  vote_gas_used : Nat
  highest_justified_epoch : Nat
  highest_finalized_epoch : Nat
  highest_finalized_hash : Nat
deriving DecidableEq, Repr

/-- The all-zero default metadata value. -/

def defaultMetadata : HybridCasperMetadata :=
  { vote_gas_used := 0, highest_justified_epoch := 0,
    highest_finalized_epoch := 0, highest_finalized_hash := 0 }

/-- `HybridCasper::update_metadata`: query the highest justified epoch,
the highest finalized epoch, then the checkpoint hash of the
just-fetched finalized epoch, assigning each successful result into the
metadata in that order; a failing query aborts with its error, leaving
the assignments already made in place. -/

def update_metadata {σ : Type} (p : HybridCasperParams)
    (metadata : HybridCasperMetadata) (caller : SystemCall σ) (s : σ) :
    Except Error Unit × HybridCasperMetadata × σ :=
  match highest_justified_epoch p caller s with
  | (Except.error e, s1) => (Except.error e, metadata, s1)
  | (Except.ok j, s1) =>
    let m1 := { metadata with highest_justified_epoch := j }
    match highest_finalized_epoch p caller s1 with
    | (Except.error e, s2) => (Except.error e, m1, s2)
    | (Except.ok f, s2) =>
      let m2 := { m1 with highest_finalized_epoch := f }
      match checkpoint_hashes p m2.highest_finalized_epoch caller s2 with
      | (Except.error e, s3) => (Except.error e, m2, s3)
      | (Except.ok hh, s3) =>
        (Except.ok (), { m2 with highest_finalized_hash := hh }, s3)

/-- A caller fixture for the metadata witnesses: selector dispatch
answering justified = 3, finalized = 2, checkpoint hash = word 1. -/

def metadataTestCaller : SystemCall Unit :=
  fun s _ data =>
    (if data.take 4 = [0x78, 0x3c, 0xcb, 0x4e] then Except.ok (abiWord 3)
     else if data.take 4 = [0x19, 0xdc, 0x02, 0x62] then
      Except.ok (abiWord 2)
     else if data.take 4 = [0x98, 0xcd, 0xa0, 0x11] then
      Except.ok (abiWord 1)
     else Except.error "call failed", s)

/-! ## Hex codec and placeholder substitution -/

/-- Value of one hexadecimal digit character (`rustc_hex` accepts both
cases), or `none` for a non-hex character. -/

def hexVal (c : Char) : Option Nat :=
  if '0' ≤ c ∧ c ≤ '9' then some (c.toNat - '0'.toNat)
  else if 'a' ≤ c ∧ c ≤ 'f' then some (c.toNat - 'a'.toNat + 10)
  else if 'A' ≤ c ∧ c ≤ 'F' then some (c.toNat - 'A'.toNat + 10)
  else none

/-- Hex-decode a character list two digits per byte; fails on an odd
length or a non-hex character (`rustc_hex::FromHex`). -/

def fromHexList : List Char → Option Bytes
  | [] => some []
  | [_] => none
  | c1 :: c2 :: rest => do
    let hi ← hexVal c1
    let lo ← hexVal c2
    let tail ← fromHexList rest
    pure ((hi * 16 + lo) :: tail)

/-- Hex-decode a string (`str::from_hex` in the source). -/

def from_hex (s : String) : Option Bytes :=
  fromHexList s.data

/-- Lowercase hexadecimal digit character for a value below 16. -/

def hexDigitChar (n : Nat) : Char :=
  if n < 10 then Char.ofNat (48 + n) else Char.ofNat (97 + n - 10)

/-- `k`-digit zero-padded lowercase hexadecimal form of `n`. -/

def natToHexPadded (k n : Nat) : String :=
  String.mk ((List.range k).map
    (fun i => hexDigitChar (n / 16 ^ (k - 1 - i) % 16)))

/-- Hex form of a 20-byte address: 40 lowercase hex digits, as the Rust
`format!` with the lower-hex specifier prints an `Address`. -/

def addressHex (a : Nat) : String :=
  natToHexPadded 40 (a % 2 ^ 160)

/-- Replace every occurrence of `pat` in the character list, scanning
left to right (the `skip` counter steps over the characters of an
occurrence just replaced). -/

def substAux (rep : List Char) (pat : List Char) :
    List Char → Nat → List Char
  | [], _ => []
  | _ :: rest, skip + 1 => substAux rep pat rest skip
  | c :: rest, 0 =>
    if pat ≠ [] ∧ pat.isPrefixOf (c :: rest) then
      rep ++ substAux rep pat rest (pat.length - 1)
    else
      c :: substAux rep pat rest 0

/-- `str::replace`: replace every occurrence of `pat` by `rep`. -/

def strReplace (s pat rep : String) : String :=
  String.mk (substAux rep.data pat.data s.data 0)

/-! ## Parameter resolution -/

/-- The built-in default contract bytecode constants
(`DEFAULT_CASPER_CONTRACT` and friends) live in the `engines` module,
outside the given source; they are hex strings, the Casper one a
template containing the placeholder `<rlp_decoder>`. The resolution
function takes them as an explicit record. -/

structure DefaultContracts where
  casper : String
  purity_checker : String
  msg_hasher : String
  rlp_decoder : String

/-- Modelled from the spec: `::ethereum::ether()` (outside the given
source) — the number of wei per ether. -/

def ether : Nat := 10 ^ 18

/-- The optional configuration record
(`ethjson::spec::HybridCasperParams`, whose every field is optional;
its shape is determined by how the source consumes it). -/

structure JsonHybridCasperParams where
  contract_code : Option Bytes
  contract_address : Option Nat
  contract_balance : Option Nat
  purity_checker_contract_code : Option Bytes
  purity_checker_contract_address : Option Nat
  msg_hasher_contract_code : Option Bytes
  msg_hasher_contract_address : Option Nat
  rlp_decoder_contract_code : Option Bytes
  rlp_decoder_contract_address : Option Nat
  deploy_rlp_decoder : Option Bool
  epoch_length : Option Nat
  withdrawal_delay : Option Nat
  dynasty_logout_delay : Option Nat
  base_interest_factor : Option Nat
  base_penalty_factor : Option Nat
  min_deposit_size : Option Nat
  warm_up_period : Option Nat
  non_revert_min_deposits : Option Nat

/-- The all-unset configuration record. -/

def emptyJsonParams : JsonHybridCasperParams :=
  { contract_code := none, contract_address := none,
    contract_balance := none, purity_checker_contract_code := none,
    purity_checker_contract_address := none,
    msg_hasher_contract_code := none,
    msg_hasher_contract_address := none,
    rlp_decoder_contract_code := none,
    rlp_decoder_contract_address := none, deploy_rlp_decoder := none,
    epoch_length := none, withdrawal_delay := none,
    dynasty_logout_delay := none, base_interest_factor := none,
    base_penalty_factor := none, min_deposit_size := none,
    warm_up_period := none, non_revert_min_deposits := none }

/-- `impl From<ethjson::spec::HybridCasperParams> for
HybridCasperParams`: substitute the documented default for every unset
field. The default bytecodes are hex-decoded eagerly (as Rust's
`map_or` evaluates its default argument), the Casper template after
substituting the `<rlp_decoder>` placeholder with the hex form of the
resolved RLP-decoder address; `none` models the `expect` panic on a
corrupt built-in default. -/

def resolveParams (defaults : DefaultContracts)
    (p : JsonHybridCasperParams) : Option HybridCasperParams :=
  let rlp_decoder_contract_address :=
    p.rlp_decoder_contract_address.getD 0x43
  do
  let default_casper_code ←
    from_hex (strReplace defaults.casper "<rlp_decoder>"
      (addressHex rlp_decoder_contract_address))
  let default_purity_code ← from_hex defaults.purity_checker
  let default_msg_hasher_code ← from_hex defaults.msg_hasher
  let default_rlp_decoder_code ← from_hex defaults.rlp_decoder
  some ({
    contract_code := p.contract_code.getD default_casper_code,
    contract_address := p.contract_address.getD 0x40,
    contract_balance := p.contract_balance.getD (1250000 * ether),
    purity_checker_contract_code :=
      p.purity_checker_contract_code.getD default_purity_code,
    purity_checker_contract_address :=
      p.purity_checker_contract_address.getD 0x41,
    msg_hasher_contract_code :=
      p.msg_hasher_contract_code.getD default_msg_hasher_code,
    msg_hasher_contract_address :=
      p.msg_hasher_contract_address.getD 0x42,
    rlp_decoder_contract_code :=
      p.rlp_decoder_contract_code.getD default_rlp_decoder_code,
    rlp_decoder_contract_address := rlp_decoder_contract_address,
    deploy_rlp_decoder := p.deploy_rlp_decoder.getD true,
    epoch_length := p.epoch_length.getD 5,
    withdrawal_delay := p.withdrawal_delay.getD 150,
    dynasty_logout_delay := p.dynasty_logout_delay.getD 70,
    base_interest_factor := p.base_interest_factor.getD 70000000,
    base_penalty_factor := p.base_penalty_factor.getD 2000,
    min_deposit_size := p.min_deposit_size.getD (5 * ether),
    warm_up_period := p.warm_up_period.getD 5,
    non_revert_min_deposits := p.non_revert_min_deposits.getD ether })

/-! ## Genesis state initialization -/

/-- Modelled from the spec: the state-store collaborator consumed at
genesis, recording its writes in order. `balances` logs the
`new_contract(address, balance, nonce)` calls and `codes` the
successful `init_code(address, code)` writes; `failCode` is the store's
failure behavior, deciding which code writes fail and with what
error. -/

structure CasperState where
  balances : List (Nat × Nat × Nat)
  codes : List (Nat × Bytes)
  failCode : Nat → Bytes → Option Error

/-- `State::new_contract(address, balance, nonce)`: record the account
creation (this store operation does not fail). -/

def new_contract (st : CasperState) (address balance nonce : Nat) :
    CasperState :=
  { st with balances := st.balances ++ [(address, balance, nonce)] }

/-- `State::init_code(address, code)`: record the code write, or fail
with the store's error for this write. -/

def init_code (st : CasperState) (address : Nat) (code : Bytes) :
    Except Error CasperState :=
  match st.failCode address code with
  | some e => Except.error e
  | none => Except.ok { st with codes := st.codes ++ [(address, code)] }

/-- `HybridCasper::init_state`: create the main contract's account with
the configured balance and zero nonce, then install the main,
purity-checker and message-hasher bytecodes unconditionally and the
RLP-decoder bytecode only when `deploy_rlp_decoder` is set; a failing
write aborts with its error, leaving the earlier writes in place. -/

def init_state (p : HybridCasperParams) (st0 : CasperState) :
    Except Error Unit × CasperState :=
  let st1 := new_contract st0 p.contract_address p.contract_balance 0
  match init_code st1 p.contract_address p.contract_code with
  | Except.error e => (Except.error e, st1)
  | Except.ok st2 =>
    match init_code st2 p.purity_checker_contract_address
        p.purity_checker_contract_code with
    | Except.error e => (Except.error e, st2)
    | Except.ok st3 =>
      match init_code st3 p.msg_hasher_contract_address
          p.msg_hasher_contract_code with
      | Except.error e => (Except.error e, st3)
      | Except.ok st4 =>
        if p.deploy_rlp_decoder then
          match init_code st4 p.rlp_decoder_contract_address
              p.rlp_decoder_contract_code with
          | Except.error e => (Except.error e, st4)
          | Except.ok st5 => (Except.ok (), st5)
        else
          (Except.ok (), st4)

/-- An initial state fixture whose store accepts every write. -/

def emptyOkState : CasperState :=
  { balances := [], codes := [], failCode := fun _ _ => none }

/-- A state fixture whose store rejects the write at address 0x41 (the
default purity-checker address). -/

def failAt41State : CasperState :=
  { balances := [], codes := [],
    failCode := fun a _ =>
      if a = 0x41 then some (Error.stateWrite "disk full") else none }

/-! ## Schedule mutation -/

/-- The EVM schedule (`vm::Schedule`, an external collaborator outside
the given source): the `eip86` flag the module touches, with the
schedule's many remaining fields abstracted as a value of an arbitrary
type `α`. -/

structure Schedule (α : Type) where
  eip86 : Bool
  rest : α
deriving DecidableEq, Repr

/-- `HybridCasper::enable_casper_schedule`: set the schedule's `eip86`
flag. -/

def enable_casper_schedule {α : Type} (schedule : Schedule α) :
    Schedule α :=
  { schedule with eip86 := true }

/-! ## Metadata binary encoding

Modelled from the spec: the derives `RlpEncodable, RlpDecodable` on
`HybridCasperMetadata` come from the host's `rlp` crate, outside the
given source — the standard recursive-length-prefix encoding, the
struct encoded as the list of its four fields in declaration order, the
`U256` fields as minimal big-endian byte strings and the `H256` field
as a 32-byte string. Being a function of the value, the encoding is
deterministic: equal logical values produce the same bytes. -/

/-- RLP encoding of a byte string. -/

def rlpStr (bs : Bytes) : Bytes :=
  match bs with
  | [b] => if b < 128 then [b] else [129, b]
  | _ =>
    if bs.length ≤ 55 then (128 + bs.length) :: bs
    else (183 + (natToBE bs.length).length) :: (natToBE bs.length ++ bs)

/-- RLP list framing: prefix a header to the concatenated payload. -/

def rlpList (payload : Bytes) : Bytes :=
  if payload.length ≤ 55 then (192 + payload.length) :: payload
  else (247 + (natToBE payload.length).length) ::
    (natToBE payload.length ++ payload)

/-- RLP encoding of a `U256`: its minimal big-endian bytes as a
string. -/

def encodeU256 (n : Nat) : Bytes :=
  rlpStr (natToBE n)

/-- RLP encoding of an `H256`: its 32 bytes as a string. -/

def encodeH256 (h : Nat) : Bytes :=
  rlpStr (beBytesPadded 32 h)

/-- RLP encoding of the metadata record: the list of its four fields in
declaration order. -/

def encodeMetadata (m : HybridCasperMetadata) : Bytes :=
  rlpList (encodeU256 m.vote_gas_used ++
    encodeU256 m.highest_justified_epoch ++
    encodeU256 m.highest_finalized_epoch ++
    encodeH256 m.highest_finalized_hash)

/-- Parse one RLP byte string: the decoded string and the remaining
input. -/

def parseStr (bs : Bytes) : Option (Bytes × Bytes) :=
  match bs with
  | [] => none
  | b :: rest =>
    if b < 128 then some ([b], rest)
    else if b ≤ 183 then
      let len := b - 128
      if rest.length < len then none
      else some (rest.take len, rest.drop len)
    else if b ≤ 191 then
      let ll := b - 183
      if rest.length < ll then none
      else
        let len := beToNat (rest.take ll)
        let rest2 := rest.drop ll
        if rest2.length < len then none
        else some (rest2.take len, rest2.drop len)
    else none

/-- Parse one RLP-encoded `U256`. -/

def parseU256 (bs : Bytes) : Option (Nat × Bytes) :=
  match parseStr bs with
  | some (v, r) => some (beToNat v, r)
  | none => none

/-- Parse one RLP-encoded `H256`: the string must be exactly 32
bytes. -/

def parseH256 (bs : Bytes) : Option (Nat × Bytes) :=
  match parseStr bs with
  | some (v, r) => if v.length = 32 then some (beToNat v, r) else none
  | none => none

/-- Parse the RLP list header, returning the payload; the declared
length must cover the rest of the input exactly. -/

def parseListPayload (bs : Bytes) : Option Bytes :=
  match bs with
  | [] => none
  | b :: rest =>
    if b < 192 then none
    else if b ≤ 247 then
      if rest.length = b - 192 then some rest else none
    else
      let ll := b - 247
      if rest.length < ll then none
      else
        let rest2 := rest.drop ll
        if rest2.length = beToNat (rest.take ll) then some rest2
        else none

/-- RLP decoding of the metadata record. -/

def decodeMetadata (bs : Bytes) : Option HybridCasperMetadata := do
  let payload ← parseListPayload bs
  let (v1, r1) ← parseU256 payload
  let (v2, r2) ← parseU256 r1
  let (v3, r3) ← parseU256 r2
  let (v4, r4) ← parseH256 r3
  if r4 = [] then
    some { vote_gas_used := v1, highest_justified_epoch := v2,
           highest_finalized_epoch := v3, highest_finalized_hash := v4 }
  else
    none

/-- The metadata value with every field at the 256-bit maximum. -/

def maxMetadata : HybridCasperMetadata :=
  { vote_gas_used := 2 ^ 256 - 1,
    highest_justified_epoch := 2 ^ 256 - 1,
    highest_finalized_epoch := 2 ^ 256 - 1,
    highest_finalized_hash := 2 ^ 256 - 1 }

/-! ## Theorems

Helper lemmas about the byte-level codecs, followed by the
specification theorems and their witnesses. -/

theorem natToBE_eq (n : Nat) :
    natToBE n = if n = 0 then [] else natToBE (n / 256) ++ [n % 256] := by
  rw [natToBE, dite_eq_ite]

theorem beToNat_append_singleton (l : Bytes) (b : Nat) :
    beToNat (l ++ [b]) = beToNat l * 256 + b := by
  simp [beToNat, List.foldl_append]

theorem beToNat_natToBE (n : Nat) : beToNat (natToBE n) = n := by
  induction n using Nat.strong_induction_on with
  | _ n ih =>
    rw [natToBE_eq]
    by_cases h : n = 0
    · simp [h, beToNat]
    · rw [if_neg h, beToNat_append_singleton,
        ih (n / 256) (Nat.div_lt_self (Nat.pos_of_ne_zero h) (by decide))]
      omega

theorem beToNat_replicate_zero_append (k : Nat) (l : Bytes) :
    beToNat (List.replicate k 0 ++ l) = beToNat l := by
  induction k with
  | zero => simp
  | succ k ih =>
    have : List.replicate (k + 1) 0 ++ l = [0] ++ (List.replicate k 0 ++ l) := by
      simp [List.replicate_succ]
    rw [this]
    simpa [beToNat] using ih

theorem beToNat_beBytesPadded (k n : Nat) :
    beToNat (beBytesPadded k n) = n := by
  rw [beBytesPadded, beToNat_replicate_zero_append, beToNat_natToBE]

theorem natToBE_length_le (k : Nat) :
    ∀ n, n < 256 ^ k → (natToBE n).length ≤ k := by
  induction k with
  | zero =>
    intro n hn
    interval_cases n
    simp [natToBE_eq]
  | succ k ih =>
    intro n hn
    rw [natToBE_eq]
    by_cases h : n = 0
    · simp [h]
    · rw [if_neg h]
      have hdiv : n / 256 < 256 ^ k := by
        rw [Nat.div_lt_iff_lt_mul (by decide : 0 < 256)]
        calc n < 256 ^ (k + 1) := hn
        _ = 256 ^ k * 256 := by ring
      simpa using Nat.succ_le_succ (ih (n / 256) hdiv)

theorem beBytesPadded_length (k n : Nat) (h : (natToBE n).length ≤ k) :
    (beBytesPadded k n).length = k := by
  simp [beBytesPadded]
  omega

/-- C1: a transaction classifies as a vote transaction exactly when it is
unsigned, its action is a call to the configured main-contract address,
its payload is at least 4 bytes long, and the first 4 payload bytes are
`0xe9 0xdc 0x06 0x14`; the guard chain in the definition evaluates these
checks in that order, yielding `false` at the first failing one. -/

theorem is_vote_transaction_iff (p : HybridCasperParams)
    (tx : SignedTransaction) :
    is_vote_transaction p tx = true ↔
      tx.is_unsigned = true ∧
      tx.unsigned.action = Action.call p.contract_address ∧
      4 ≤ tx.unsigned.data.length ∧
      tx.unsigned.data.take 4 = [0xe9, 0xdc, 0x06, 0x14] := by
  rcases tx with ⟨⟨action, data⟩, isu⟩
  cases isu with
  | false => simp [is_vote_transaction]
  | true =>
    cases action with
    | create => simp [is_vote_transaction]
    | call a =>
      by_cases ha : a = p.contract_address
      · subst ha
        by_cases hlen : data.length < 4
        · simp only [is_vote_transaction, Bool.not_true, Bool.false_eq_true,
            if_false, if_pos hlen]
          simp
          omega
        · by_cases hsel : data.take 4 = [0xe9, 0xdc, 0x06, 0x14]
          · simp [is_vote_transaction, hlen, hsel]
            omega
          · simp [is_vote_transaction, hlen, hsel]
      · simp [is_vote_transaction, ha]

theorem abiWord_length (n : Nat) : (abiWord n).length = 32 := by
  apply beBytesPadded_length
  apply natToBE_length_le
  have h : (256 : Nat) ^ 32 = 2 ^ 256 := by norm_num
  rw [h]
  exact Nat.mod_lt n (by positivity)

theorem beToNat_abiWord (n : Nat) (h : n < 2 ^ 256) :
    beToNat (abiWord n) = n := by
  rw [abiWord, beToNat_beBytesPadded, Nat.mod_eq_of_lt h]

/-- C2: with a positive epoch length, `on_new_epoch` at a block number
divisible by the epoch length issues exactly one system call, addressed
to the main contract with payload `initialize_epoch(block_number /
epoch_length)`, and propagates that call's result (success, or the
call's error wrapped as `FailedSystemCall`); at any other block number
it issues no call and returns success. -/

theorem on_new_epoch_spec {σ : Type} (p : HybridCasperParams)
    (block_number : Nat) (caller : SystemCall σ) (s : σ)
    (hL : 0 < p.epoch_length) :
    (block_number % p.epoch_length = 0 →
      (on_new_epoch p block_number (traced caller) (s, [])).2.2 =
        [(p.contract_address,
          initialize_epoch_input (block_number / p.epoch_length))] ∧
      (on_new_epoch p block_number (traced caller) (s, [])).1 =
        (match (caller s p.contract_address
            (initialize_epoch_input (block_number / p.epoch_length))).1 with
         | Except.ok _ => Except.ok ()
         | Except.error e => Except.error (Error.failedSystemCall e))) ∧
    (block_number % p.epoch_length ≠ 0 →
      on_new_epoch p block_number (traced caller) (s, []) =
        (Except.ok (), (s, []))) := by
  constructor
  · intro hz
    rw [on_new_epoch, if_pos hz]
    rcases hc : caller s p.contract_address
        (initialize_epoch_input (block_number / p.epoch_length)) with ⟨r, s1⟩
    cases r <;> simp [traced, hc]
  · intro hnz
    rw [on_new_epoch, if_neg hnz]

/-- Witness for C2 at epoch length 5: block 10 issues exactly the one
call `initialize_epoch(2)` under a caller that accepts every call. -/

theorem on_new_epoch_spec_witness :
    (0 : Nat) < 5 ∧
    (on_new_epoch testParams 10
        (traced (fun (s : Unit) _ _ => (Except.ok [], s)))
        ((), [])).2.2 =
      [(0x40, initialize_epoch_input 2)] := by
  refine ⟨by decide, ?_⟩
  have h := on_new_epoch_spec testParams 10
    (fun (s : Unit) _ _ => (Except.ok [], s)) () (by decide)
  exact (h.1 (by decide)).1

theorem highest_justified_epoch_eq {σ : Type} (p : HybridCasperParams)
    (caller : SystemCall σ) (s : σ) :
    highest_justified_epoch p caller s =
      match caller s p.contract_address
          (highest_justified_epoch_input p.non_revert_min_deposits) with
      | (Except.ok output, s1) =>
        (match abi_decode_int128 output with
         | Except.ok v => (Except.ok v, s1)
         | Except.error e => (Except.error (Error.failedSystemCall e), s1))
      | (Except.error e, s1) =>
        (Except.error (Error.failedSystemCall e), s1) := rfl

theorem highest_finalized_epoch_eq {σ : Type} (p : HybridCasperParams)
    (caller : SystemCall σ) (s : σ) :
    highest_finalized_epoch p caller s =
      match caller s p.contract_address
          (highest_finalized_epoch_input p.non_revert_min_deposits) with
      | (Except.ok output, s1) =>
        (match abi_decode_int128 output with
         | Except.ok v => (Except.ok v, s1)
         | Except.error e => (Except.error (Error.failedSystemCall e), s1))
      | (Except.error e, s1) =>
        (Except.error (Error.failedSystemCall e), s1) := rfl

theorem checkpoint_hashes_eq {σ : Type} (p : HybridCasperParams)
    (epoch : Nat) (caller : SystemCall σ) (s : σ) :
    checkpoint_hashes p epoch caller s =
      match caller s p.contract_address (checkpoint_hashes_input epoch) with
      | (Except.ok output, s1) =>
        (match abi_decode_fixed_bytes32 output with
         | Except.ok v => (Except.ok v, s1)
         | Except.error e => (Except.error (Error.failedSystemCall e), s1))
      | (Except.error e, s1) =>
        (Except.error (Error.failedSystemCall e), s1) := rfl

/-- C6: each query passes its documented sole argument (the threshold for
the two epoch queries, the epoch for the hash query); on a 32-byte
output the epoch queries decode exactly one Int(128) word and the hash
query one FixedBytes(32) word; a malformed output surfaces as
`FailedSystemCall` with the decode error, and a failed underlying call
surfaces as `FailedSystemCall` carrying that call's error — no error is
swallowed. -/

theorem casper_queries_spec {σ : Type} (p : HybridCasperParams)
    (caller : SystemCall σ) (s : σ) :
    (∀ out s1,
      caller s p.contract_address
          (highest_justified_epoch_input p.non_revert_min_deposits) =
        (Except.ok out, s1) →
      (out.length = 32 →
        highest_justified_epoch p caller s = (Except.ok (beToNat out), s1)) ∧
      (out.length ≠ 32 →
        highest_justified_epoch p caller s =
          (Except.error (Error.failedSystemCall "abi decode error"), s1))) ∧
    (∀ e s1,
      caller s p.contract_address
          (highest_justified_epoch_input p.non_revert_min_deposits) =
        (Except.error e, s1) →
      highest_justified_epoch p caller s =
        (Except.error (Error.failedSystemCall e), s1)) ∧
    (∀ out s1,
      caller s p.contract_address
          (highest_finalized_epoch_input p.non_revert_min_deposits) =
        (Except.ok out, s1) →
      (out.length = 32 →
        highest_finalized_epoch p caller s = (Except.ok (beToNat out), s1)) ∧
      (out.length ≠ 32 →
        highest_finalized_epoch p caller s =
          (Except.error (Error.failedSystemCall "abi decode error"), s1))) ∧
    (∀ e s1,
      caller s p.contract_address
          (highest_finalized_epoch_input p.non_revert_min_deposits) =
        (Except.error e, s1) →
      highest_finalized_epoch p caller s =
        (Except.error (Error.failedSystemCall e), s1)) ∧
    (∀ epoch out s1,
      caller s p.contract_address (checkpoint_hashes_input epoch) =
        (Except.ok out, s1) →
      (out.length = 32 →
        checkpoint_hashes p epoch caller s = (Except.ok (beToNat out), s1)) ∧
      (out.length ≠ 32 →
        checkpoint_hashes p epoch caller s =
          (Except.error (Error.failedSystemCall "abi decode error"), s1))) ∧
    (∀ epoch e s1,
      caller s p.contract_address (checkpoint_hashes_input epoch) =
        (Except.error e, s1) →
      checkpoint_hashes p epoch caller s =
        (Except.error (Error.failedSystemCall e), s1)) := by
  refine ⟨?_, ?_, ?_, ?_, ?_, ?_⟩
  · intro out s1 hc
    constructor <;> intro hlen <;>
      simp [highest_justified_epoch, hc, abi_decode_int128, hlen]
  · intro e s1 hc
    simp [highest_justified_epoch, hc]
  · intro out s1 hc
    constructor <;> intro hlen <;>
      simp [highest_finalized_epoch, hc, abi_decode_int128, hlen]
  · intro e s1 hc
    simp [highest_finalized_epoch, hc]
  · intro epoch out s1 hc
    constructor <;> intro hlen <;>
      simp [checkpoint_hashes, hc, abi_decode_fixed_bytes32, hlen]
  · intro epoch e s1 hc
    simp [checkpoint_hashes, hc]

/-- Witness for C6: under `queryTestCaller`, the justified-epoch query
decodes 7, the finalized-epoch query surfaces the decode failure, and
the checkpoint-hash query surfaces the call failure. -/

theorem casper_queries_spec_witness :
    (highest_justified_epoch testParams queryTestCaller ()).1 =
      Except.ok 7 ∧
    (highest_finalized_epoch testParams queryTestCaller ()).1 =
      Except.error (Error.failedSystemCall "abi decode error") ∧
    (checkpoint_hashes testParams 2 queryTestCaller ()).1 =
      Except.error (Error.failedSystemCall "call failed") := by
  have h := casper_queries_spec testParams queryTestCaller ()
  refine ⟨?_, ?_, ?_⟩
  · have h1 := (h.1 (abiWord 7) () rfl).1 (abiWord_length 7)
    rw [h1, beToNat_abiWord 7 (by norm_num)]
  · have h2 := (h.2.2.1 [1] () rfl).2 (by decide)
    rw [h2]
  · have h3 := h.2.2.2.2.2 2 "call failed" () rfl
    rw [h3]

/-- C3: `update_metadata` runs the three queries in the order
justified-epoch, finalized-epoch, checkpoint-hash (each starting from
the caller state the previous one left), writes each result into the
metadata in that order, and passes the freshly fetched finalized epoch
as the checkpoint-hash query's argument; a failing query aborts the
update with that query's error, keeping the fields assigned before the
failure at their new values and those after at their previous values. -/

theorem update_metadata_spec {σ : Type} (p : HybridCasperParams)
    (m : HybridCasperMetadata) (caller : SystemCall σ) (s : σ) :
    (∀ e s1, highest_justified_epoch p caller s = (Except.error e, s1) →
      update_metadata p m caller s = (Except.error e, m, s1)) ∧
    (∀ j s1, highest_justified_epoch p caller s = (Except.ok j, s1) →
      (∀ e s2,
        highest_finalized_epoch p caller s1 = (Except.error e, s2) →
        update_metadata p m caller s =
          (Except.error e, { m with highest_justified_epoch := j }, s2)) ∧
      (∀ f s2, highest_finalized_epoch p caller s1 = (Except.ok f, s2) →
        (∀ e s3, checkpoint_hashes p f caller s2 = (Except.error e, s3) →
          update_metadata p m caller s =
            (Except.error e,
             { m with highest_justified_epoch := j,
                      highest_finalized_epoch := f }, s3)) ∧
        (∀ hh s3, checkpoint_hashes p f caller s2 = (Except.ok hh, s3) →
          update_metadata p m caller s =
            (Except.ok (),
             { m with highest_justified_epoch := j,
                      highest_finalized_epoch := f,
                      highest_finalized_hash := hh }, s3)))) := by
  constructor
  · intro e s1 h1
    simp only [update_metadata, h1]
  · intro j s1 h1
    constructor
    · intro e s2 h2
      simp only [update_metadata, h1, h2]
    · intro f s2 h2
      constructor
      · intro e s3 h3
        simp only [update_metadata, h1, h2, h3]
      · intro hh s3 h3
        simp only [update_metadata, h1, h2, h3]

/-- Witness for C3: under `metadataTestCaller`, updating the all-zero
metadata succeeds and yields justified 3, finalized 2, hash 1, with
vote-gas-used untouched. -/

theorem update_metadata_spec_witness :
    update_metadata testParams defaultMetadata metadataTestCaller () =
      (Except.ok (),
       { vote_gas_used := 0, highest_justified_epoch := 3,
         highest_finalized_epoch := 2, highest_finalized_hash := 1 },
       ()) := by
  have h := update_metadata_spec testParams defaultMetadata
    metadataTestCaller ()
  have hj : highest_justified_epoch testParams metadataTestCaller () =
      (Except.ok 3, ()) := by
    have hcall : metadataTestCaller () testParams.contract_address
        (highest_justified_epoch_input testParams.non_revert_min_deposits) =
        (Except.ok (abiWord 3), ()) := rfl
    rw [highest_justified_epoch_eq, hcall]
    simp [abi_decode_int128, abiWord_length,
      beToNat_abiWord 3 (by norm_num)]
  have hf : highest_finalized_epoch testParams metadataTestCaller () =
      (Except.ok 2, ()) := by
    have hcall : metadataTestCaller () testParams.contract_address
        (highest_finalized_epoch_input testParams.non_revert_min_deposits) =
        (Except.ok (abiWord 2), ()) := rfl
    rw [highest_finalized_epoch_eq, hcall]
    simp [abi_decode_int128, abiWord_length,
      beToNat_abiWord 2 (by norm_num)]
  have hc : checkpoint_hashes testParams 2 metadataTestCaller () =
      (Except.ok 1, ()) := by
    have hcall : metadataTestCaller () testParams.contract_address
        (checkpoint_hashes_input 2) = (Except.ok (abiWord 1), ()) := rfl
    rw [checkpoint_hashes_eq, hcall]
    simp [abi_decode_fixed_bytes32, abiWord_length,
      beToNat_abiWord 1 (by norm_num)]
  exact (((h.2 3 () hj).2 2 () hf).2 1 () hc)

/-- C7: `update_metadata` never changes the `vote_gas_used` field —
whatever the caller does, and whether the update succeeds or fails, the
resulting metadata's vote-gas-used equals its value before the call. -/

theorem update_metadata_preserves_vote_gas_used {σ : Type}
    (p : HybridCasperParams) (m : HybridCasperMetadata)
    (caller : SystemCall σ) (s : σ) :
    (update_metadata p m caller s).2.1.vote_gas_used = m.vote_gas_used := by
  simp only [update_metadata]
  split
  · rfl
  · split
    · rfl
    · split <;> rfl

/-- C4: whenever resolution succeeds, every unset field got its
documented default — epoch length 5, withdrawal delay 150, addresses
0x40 through 0x43 — and an unset main-contract bytecode is the result
of first substituting the `<rlp_decoder>` placeholder in the template
with the hex form of the resolved RLP-decoder address and only then
hex-decoding. -/

theorem resolveParams_defaults (defaults : DefaultContracts)
    (p : JsonHybridCasperParams) (r : HybridCasperParams)
    (h : resolveParams defaults p = some r) :
    (p.epoch_length = none → r.epoch_length = 5) ∧
    (p.withdrawal_delay = none → r.withdrawal_delay = 150) ∧
    (p.contract_address = none → r.contract_address = 0x40) ∧
    (p.purity_checker_contract_address = none →
      r.purity_checker_contract_address = 0x41) ∧
    (p.msg_hasher_contract_address = none →
      r.msg_hasher_contract_address = 0x42) ∧
    (p.rlp_decoder_contract_address = none →
      r.rlp_decoder_contract_address = 0x43) ∧
    (p.contract_code = none →
      from_hex (strReplace defaults.casper "<rlp_decoder>"
          (addressHex r.rlp_decoder_contract_address)) =
        some r.contract_code) := by
  rw [resolveParams] at h
  rcases hc : from_hex (strReplace defaults.casper "<rlp_decoder>"
      (addressHex (p.rlp_decoder_contract_address.getD 0x43))) with _ | dc
  · rw [hc] at h
    simp at h
  rcases hp : from_hex defaults.purity_checker with _ | dp
  · rw [hc, hp] at h
    simp at h
  rcases hm : from_hex defaults.msg_hasher with _ | dm
  · rw [hc, hp, hm] at h
    simp at h
  rcases hd : from_hex defaults.rlp_decoder with _ | dd
  · rw [hc, hp, hm, hd] at h
    simp at h
  rw [hc, hp, hm, hd] at h
  simp at h
  subst h
  refine ⟨?_, ?_, ?_, ?_, ?_, ?_, ?_⟩ <;> intro hnone <;>
    simp [hnone, hc]

/-- Witness for C4: resolving the all-unset configuration against a
two-byte template whose second byte is the placeholder yields the
documented defaults, with the template substituted and decoded. -/

theorem resolveParams_defaults_witness :
    ∃ r, resolveParams
        { casper := "ff<rlp_decoder>", purity_checker := "01",
          msg_hasher := "02", rlp_decoder := "03" }
        emptyJsonParams = some r ∧
      r.epoch_length = 5 ∧ r.withdrawal_delay = 150 ∧
      r.contract_address = 0x40 ∧
      r.purity_checker_contract_address = 0x41 ∧
      r.msg_hasher_contract_address = 0x42 ∧
      r.rlp_decoder_contract_address = 0x43 ∧
      from_hex (strReplace "ff<rlp_decoder>" "<rlp_decoder>"
          (addressHex r.rlp_decoder_contract_address)) =
        some r.contract_code := by
  have hres : resolveParams
      { casper := "ff<rlp_decoder>", purity_checker := "01",
        msg_hasher := "02", rlp_decoder := "03" }
      emptyJsonParams = some
      { contract_code :=
          [0xff, 0x00, 0x00, 0x00, 0x00, 0x00, 0x00, 0x00, 0x00, 0x00,
           0x00, 0x00, 0x00, 0x00, 0x00, 0x00, 0x00, 0x00, 0x00, 0x00,
           0x43],
        contract_address := 0x40,
        contract_balance := 1250000 * ether,
        purity_checker_contract_code := [0x01],
        purity_checker_contract_address := 0x41,
        msg_hasher_contract_code := [0x02],
        msg_hasher_contract_address := 0x42,
        rlp_decoder_contract_code := [0x03],
        rlp_decoder_contract_address := 0x43,
        deploy_rlp_decoder := true, epoch_length := 5,
        withdrawal_delay := 150, dynasty_logout_delay := 70,
        base_interest_factor := 70000000, base_penalty_factor := 2000,
        min_deposit_size := 5 * ether, warm_up_period := 5,
        non_revert_min_deposits := ether } := by decide
  refine ⟨_, hres, ?_⟩
  have h := resolveParams_defaults
    { casper := "ff<rlp_decoder>", purity_checker := "01",
      msg_hasher := "02", rlp_decoder := "03" }
    emptyJsonParams _ hres
  exact ⟨h.1 rfl, h.2.1 rfl, h.2.2.1 rfl, h.2.2.2.1 rfl,
    h.2.2.2.2.1 rfl, h.2.2.2.2.2.1 rfl, h.2.2.2.2.2.2 rfl⟩

/-- C5: `init_state` always records the main account creation with the
configured balance and zero nonce; when no write fails it succeeds
having written the main, purity-checker and message-hasher codes in
order, followed by the RLP-decoder code exactly when
`deploy_rlp_decoder` is true; and a failing write surfaces that write's
error, keeping exactly the writes made before it. -/

theorem init_state_spec (p : HybridCasperParams) (st : CasperState) :
    ((init_state p st).2.balances =
      st.balances ++ [(p.contract_address, p.contract_balance, 0)]) ∧
    (∀ e, st.failCode p.contract_address p.contract_code = some e →
      (init_state p st).1 = Except.error e ∧
      (init_state p st).2.codes = st.codes) ∧
    (st.failCode p.contract_address p.contract_code = none →
      (∀ e, st.failCode p.purity_checker_contract_address
          p.purity_checker_contract_code = some e →
        (init_state p st).1 = Except.error e ∧
        (init_state p st).2.codes =
          st.codes ++ [(p.contract_address, p.contract_code)]) ∧
      (st.failCode p.purity_checker_contract_address
          p.purity_checker_contract_code = none →
        (∀ e, st.failCode p.msg_hasher_contract_address
            p.msg_hasher_contract_code = some e →
          (init_state p st).1 = Except.error e ∧
          (init_state p st).2.codes =
            st.codes ++ [(p.contract_address, p.contract_code),
              (p.purity_checker_contract_address,
               p.purity_checker_contract_code)]) ∧
        (st.failCode p.msg_hasher_contract_address
            p.msg_hasher_contract_code = none →
          (p.deploy_rlp_decoder = false →
            (init_state p st).1 = Except.ok () ∧
            (init_state p st).2.codes =
              st.codes ++ [(p.contract_address, p.contract_code),
                (p.purity_checker_contract_address,
                 p.purity_checker_contract_code),
                (p.msg_hasher_contract_address,
                 p.msg_hasher_contract_code)]) ∧
          (p.deploy_rlp_decoder = true →
            (∀ e, st.failCode p.rlp_decoder_contract_address
                p.rlp_decoder_contract_code = some e →
              (init_state p st).1 = Except.error e ∧
              (init_state p st).2.codes =
                st.codes ++ [(p.contract_address, p.contract_code),
                  (p.purity_checker_contract_address,
                   p.purity_checker_contract_code),
                  (p.msg_hasher_contract_address,
                   p.msg_hasher_contract_code)]) ∧
            (st.failCode p.rlp_decoder_contract_address
                p.rlp_decoder_contract_code = none →
              (init_state p st).1 = Except.ok () ∧
              (init_state p st).2.codes =
                st.codes ++ [(p.contract_address, p.contract_code),
                  (p.purity_checker_contract_address,
                   p.purity_checker_contract_code),
                  (p.msg_hasher_contract_address,
                   p.msg_hasher_contract_code),
                  (p.rlp_decoder_contract_address,
                   p.rlp_decoder_contract_code)]))))) := by
  rcases hflag : p.deploy_rlp_decoder with _ | _ <;>
  rcases hf1 : st.failCode p.contract_address p.contract_code
    with _ | e1 <;>
  rcases hf2 : st.failCode p.purity_checker_contract_address
    p.purity_checker_contract_code with _ | e2 <;>
  rcases hf3 : st.failCode p.msg_hasher_contract_address
    p.msg_hasher_contract_code with _ | e3 <;>
  rcases hf4 : st.failCode p.rlp_decoder_contract_address
    p.rlp_decoder_contract_code with _ | e4 <;>
  simp [init_state, init_code, new_contract, hf1, hf2, hf3, hf4, hflag]

/-- Witness for C5: with an all-accepting store, `testParams` genesis
writes the account and the four codes in order; with a store failing at
the purity-checker write, the error surfaces and only the main code was
written. -/

theorem init_state_spec_witness :
    (init_state testParams emptyOkState).1 = Except.ok () ∧
    (init_state testParams emptyOkState).2.balances = [(0x40, 0, 0)] ∧
    (init_state testParams emptyOkState).2.codes =
      [(0x40, []), (0x41, []), (0x42, []), (0x43, [])] ∧
    (init_state testParams failAt41State).1 =
      Except.error (Error.stateWrite "disk full") ∧
    (init_state testParams failAt41State).2.codes = [(0x40, [])] := by
  have h1 := init_state_spec testParams emptyOkState
  have h2 := init_state_spec testParams failAt41State
  have hok := (((h1.2.2 rfl).2 rfl).2 rfl).2 rfl |>.2 rfl
  have hfail := (h2.2.2 rfl).1 (Error.stateWrite "disk full") rfl
  exact ⟨hok.1, h1.1, hok.2, hfail.1, hfail.2⟩

/-- C9: when the configuration leaves `deploy_rlp_decoder` unset,
resolution sets it to `true`, and genesis initialization on the
resolved parameters (under a store accepting every write) does write
the RLP-decoder bytecode at the RLP-decoder address. -/

theorem deploy_rlp_decoder_default (defaults : DefaultContracts)
    (p : JsonHybridCasperParams) (r : HybridCasperParams)
    (h : resolveParams defaults p = some r)
    (hunset : p.deploy_rlp_decoder = none) :
    r.deploy_rlp_decoder = true ∧
    ∀ st : CasperState, (∀ a c, st.failCode a c = none) →
      (init_state r st).1 = Except.ok () ∧
      (r.rlp_decoder_contract_address, r.rlp_decoder_contract_code) ∈
        (init_state r st).2.codes := by
  have hflag : r.deploy_rlp_decoder = true := by
    rw [resolveParams] at h
    rcases hc : from_hex (strReplace defaults.casper "<rlp_decoder>"
        (addressHex (p.rlp_decoder_contract_address.getD 0x43)))
      with _ | dc
    · rw [hc] at h
      simp at h
    rcases hp : from_hex defaults.purity_checker with _ | dp
    · rw [hc, hp] at h
      simp at h
    rcases hm : from_hex defaults.msg_hasher with _ | dm
    · rw [hc, hp, hm] at h
      simp at h
    rcases hd : from_hex defaults.rlp_decoder with _ | dd
    · rw [hc, hp, hm, hd] at h
      simp at h
    rw [hc, hp, hm, hd] at h
    simp at h
    subst h
    simp [hunset]
  refine ⟨hflag, ?_⟩
  intro st hall
  simp [init_state, init_code, new_contract, hall, hflag]

/-- Witness for C9: the all-unset configuration resolves with the
deploy flag true, and genesis on the result writes the decoder code. -/

theorem deploy_rlp_decoder_default_witness :
    ∃ r, resolveParams
        { casper := "ff<rlp_decoder>", purity_checker := "01",
          msg_hasher := "02", rlp_decoder := "03" }
        emptyJsonParams = some r ∧
      r.deploy_rlp_decoder = true ∧
      (r.rlp_decoder_contract_address, r.rlp_decoder_contract_code) ∈
        (init_state r emptyOkState).2.codes := by
  have hres : ∃ r, resolveParams
      { casper := "ff<rlp_decoder>", purity_checker := "01",
        msg_hasher := "02", rlp_decoder := "03" }
      emptyJsonParams = some r := by
    rcases hx : resolveParams
        { casper := "ff<rlp_decoder>", purity_checker := "01",
          msg_hasher := "02", rlp_decoder := "03" }
        emptyJsonParams with _ | r
    · exact absurd hx (by decide)
    · exact ⟨r, rfl⟩
  rcases hres with ⟨r, hr⟩
  have h := deploy_rlp_decoder_default
    { casper := "ff<rlp_decoder>", purity_checker := "01",
      msg_hasher := "02", rlp_decoder := "03" }
    emptyJsonParams r hr rfl
  exact ⟨r, hr, h.1, (h.2 emptyOkState (fun _ _ => rfl)).2⟩

/-- C10: `enable_casper_schedule` sets `eip86` to `true` and leaves
every other part of the schedule unchanged. -/

theorem enable_casper_schedule_spec {α : Type} (schedule : Schedule α) :
    (enable_casper_schedule schedule).eip86 = true ∧
    (enable_casper_schedule schedule).rest = schedule.rest :=
  ⟨rfl, rfl⟩

theorem natToBE_single (n : Nat) (h1 : 0 < n) (h2 : n < 256) :
    natToBE n = [n] := by
  rw [natToBE_eq, if_neg (Nat.pos_iff_ne_zero.mp h1),
    Nat.div_eq_of_lt h2, Nat.mod_eq_of_lt h2, natToBE_eq]
  simp

theorem natToBE_length_le_32 (n : Nat) (h : n < 2 ^ 256) :
    (natToBE n).length ≤ 32 := by
  apply natToBE_length_le
  have h32 : (256 : Nat) ^ 32 = 2 ^ 256 := by norm_num
  omega

theorem parseStr_rlpStr (bs rest : Bytes) (h : bs.length ≤ 55) :
    parseStr (rlpStr bs ++ rest) = some (bs, rest) := by
  rcases bs with _ | ⟨b1, _ | ⟨b2, tl⟩⟩
  · simp [rlpStr, parseStr]
  · by_cases hb : b1 < 128
    · simp [rlpStr, parseStr, hb]
    · simp [rlpStr, parseStr, hb]
  · have h53 : tl.length ≤ 53 := by
      simp at h
      omega
    have hr : rlpStr (b1 :: b2 :: tl) =
        (128 + (b1 :: b2 :: tl).length) :: (b1 :: b2 :: tl) := by
      simp [rlpStr, h53]
    rw [hr, List.cons_append]
    have hc1 : ¬(128 + (b1 :: b2 :: tl).length < 128) := by omega
    have hc2 : 128 + (b1 :: b2 :: tl).length ≤ 183 := by
      simp
      omega
    have hsub : 128 + (b1 :: b2 :: tl).length - 128 =
        (b1 :: b2 :: tl).length := by omega
    have hlen : ¬(((b1 :: b2 :: tl) ++ rest).length <
        (b1 :: b2 :: tl).length) := by
      simp [List.length_append]
    simp only [parseStr, if_neg hc1, if_pos hc2, hsub, if_neg hlen,
      List.take_left, List.drop_left]

theorem parseU256_encodeU256 (n : Nat) (rest : Bytes)
    (h : n < 2 ^ 256) :
    parseU256 (encodeU256 n ++ rest) = some (n, rest) := by
  have hlen : (natToBE n).length ≤ 55 :=
    Nat.le_trans (natToBE_length_le_32 n h) (by omega)
  rw [parseU256, encodeU256, parseStr_rlpStr (natToBE n) rest hlen]
  simp [beToNat_natToBE]

theorem parseH256_encodeH256 (v : Nat) (rest : Bytes)
    (h : v < 2 ^ 256) :
    parseH256 (encodeH256 v ++ rest) = some (v, rest) := by
  have hpad : (beBytesPadded 32 v).length = 32 :=
    beBytesPadded_length 32 v (natToBE_length_le_32 v h)
  have hlen : (beBytesPadded 32 v).length ≤ 55 := by omega
  rw [parseH256, encodeH256, parseStr_rlpStr (beBytesPadded 32 v) rest
    hlen]
  simp [hpad, beToNat_beBytesPadded]

theorem rlpStr_length_le (bs : Bytes) (h : bs.length ≤ 55) :
    (rlpStr bs).length ≤ bs.length + 1 := by
  rcases bs with _ | ⟨b1, _ | ⟨b2, tl⟩⟩
  · simp [rlpStr]
  · by_cases hb : b1 < 128 <;> simp [rlpStr, hb]
  · have h53 : tl.length ≤ 53 := by
      simp at h
      omega
    simp [rlpStr, h53]

theorem encodeU256_length_le (n : Nat) (h : n < 2 ^ 256) :
    (encodeU256 n).length ≤ 33 := by
  have h32 := natToBE_length_le_32 n h
  have := rlpStr_length_le (natToBE n) (by omega)
  rw [encodeU256]
  omega

theorem encodeH256_length_le (v : Nat) (h : v < 2 ^ 256) :
    (encodeH256 v).length ≤ 33 := by
  have hpad : (beBytesPadded 32 v).length = 32 :=
    beBytesPadded_length 32 v (natToBE_length_le_32 v h)
  have := rlpStr_length_le (beBytesPadded 32 v) (by omega)
  rw [encodeH256]
  omega

theorem parseListPayload_rlpList (payload : Bytes)
    (h : payload.length ≤ 255) :
    parseListPayload (rlpList payload) = some payload := by
  by_cases h55 : payload.length ≤ 55
  · rw [rlpList, if_pos h55, parseListPayload]
    have hc1 : ¬(192 + payload.length < 192) := by omega
    have hc2 : 192 + payload.length ≤ 247 := by omega
    have hsub : payload.length = 192 + payload.length - 192 := by omega
    rw [if_neg hc1, if_pos hc2, if_pos hsub.symm.symm]
  · rw [rlpList, if_neg h55]
    have hone : natToBE payload.length = [payload.length] :=
      natToBE_single payload.length (by omega) (by omega)
    rw [hone]
    have hhead : 247 + [payload.length].length = 248 := by simp
    rw [hhead, parseListPayload]
    have hc1 : ¬((248 : Nat) < 192) := by omega
    have hc2 : ¬((248 : Nat) ≤ 247) := by omega
    rw [if_neg hc1, if_neg hc2]
    have hsub : (248 : Nat) - 247 = 1 := by omega
    simp only [hsub, List.cons_append, List.nil_append]
    have hlen : ¬((payload.length :: payload).length < 1) := by simp
    rw [if_neg hlen]
    simp [beToNat]

/-- C8: the RLP encoding of the metadata record round-trips — decoding
the encoding of any metadata value whose four fields are 256-bit values
returns exactly that value (and, the encoder being a pure function,
equal values always encode to the same bytes). -/

theorem metadata_rlp_roundtrip (m : HybridCasperMetadata)
    (h1 : m.vote_gas_used < 2 ^ 256)
    (h2 : m.highest_justified_epoch < 2 ^ 256)
    (h3 : m.highest_finalized_epoch < 2 ^ 256)
    (h4 : m.highest_finalized_hash < 2 ^ 256) :
    decodeMetadata (encodeMetadata m) = some m := by
  have b1 := encodeU256_length_le m.vote_gas_used h1
  have b2 := encodeU256_length_le m.highest_justified_epoch h2
  have b3 := encodeU256_length_le m.highest_finalized_epoch h3
  have b4 := encodeH256_length_le m.highest_finalized_hash h4
  have hP : (encodeU256 m.vote_gas_used ++
      encodeU256 m.highest_justified_epoch ++
      encodeU256 m.highest_finalized_epoch ++
      encodeH256 m.highest_finalized_hash).length ≤ 255 := by
    simp [List.length_append]
    omega
  have hPl : parseListPayload (rlpList (encodeU256 m.vote_gas_used ++
      (encodeU256 m.highest_justified_epoch ++
        (encodeU256 m.highest_finalized_epoch ++
          encodeH256 m.highest_finalized_hash)))) =
      some (encodeU256 m.vote_gas_used ++
        (encodeU256 m.highest_justified_epoch ++
          (encodeU256 m.highest_finalized_epoch ++
            encodeH256 m.highest_finalized_hash))) := by
    simpa [List.append_assoc] using parseListPayload_rlpList _ hP
  have q1 : ∀ r, parseU256 (encodeU256 m.vote_gas_used ++ r) =
      some (m.vote_gas_used, r) :=
    fun r => parseU256_encodeU256 m.vote_gas_used r h1
  have q2 : ∀ r, parseU256 (encodeU256 m.highest_justified_epoch ++ r) =
      some (m.highest_justified_epoch, r) :=
    fun r => parseU256_encodeU256 m.highest_justified_epoch r h2
  have q3 : ∀ r, parseU256 (encodeU256 m.highest_finalized_epoch ++ r) =
      some (m.highest_finalized_epoch, r) :=
    fun r => parseU256_encodeU256 m.highest_finalized_epoch r h3
  have hh : parseH256 (encodeH256 m.highest_finalized_hash) =
      some (m.highest_finalized_hash, []) := by
    have := parseH256_encodeH256 m.highest_finalized_hash [] h4
    simpa using this
  simp [decodeMetadata, encodeMetadata, List.append_assoc, hPl,
    q1, q2, q3, hh]

/-- Witness for C8: the round-trip at the all-zero metadata and at the
metadata with every field at the 256-bit maximum. -/

theorem metadata_rlp_roundtrip_witness :
    decodeMetadata (encodeMetadata defaultMetadata) =
      some defaultMetadata ∧
    decodeMetadata (encodeMetadata maxMetadata) = some maxMetadata :=
  ⟨metadata_rlp_roundtrip defaultMetadata (by norm_num [defaultMetadata])
      (by norm_num [defaultMetadata]) (by norm_num [defaultMetadata])
      (by norm_num [defaultMetadata]),
   metadata_rlp_roundtrip maxMetadata (by norm_num [maxMetadata])
      (by norm_num [maxMetadata]) (by norm_num [maxMetadata])
      (by norm_num [maxMetadata])⟩

end HybridCasper
